import Mathlib

/-!
Verification of the PID controller in `PIDController.h` / `PIDController.cpp`
(repository `ExampleCodeSnippets`).

The C++ `struct FPIDController` is embedded shallowly: its `float` fields
become `ℚ`, the averaging `std::vector<float>` becomes `List ℚ`, and every
member function becomes a Lean function on the record, returning the new
record (and the C++ return value, when there is one) explicitly.
-/

/-- Shallow embedding of the C++ `struct FPIDController`: tunable gains and
limits plus the mutable run-time state.  Field names follow the source. -/
structure FPIDController where
  P_Gain : ℚ
  I_Gain : ℚ
  D_Gain : ℚ
  ControlledValue_Max : ℚ
  ControlledValue_Min : ℚ
  PeriodicDuration : ℚ
  calculationAveragingBuffer : List ℚ
  calculationAverageBufferSize : ℤ
  bIsEnabled : Bool
  previousError : ℚ
  previousCalculation : ℚ
  previousInput : ℚ
  integralAccumulation : ℚ
  tickBuffer : ℚ
  deriving DecidableEq, Repr

namespace FPIDController

/-- `FPIDController::IsNearlyZero` (static): `value == 0.f` or within the
radius `0.00001f` of zero. -/
def IsNearlyZero (value : ℚ) : Bool :=
  decide (value = 0 ∨ (value > -(1/100000) ∧ value < 1/100000))

/-- `FPIDController::AccumulateBuffer` (static): adds `DeltaTime` to the
buffer and reports overflow, subtracting `BufferSize` when it overflows.
Returns the updated buffer together with the C++ `bool` result. -/
def AccumulateBuffer (Buffer DeltaTime BufferSize : ℚ) : ℚ × Bool :=
  let b := Buffer + DeltaTime
  if b ≥ BufferSize then (b - BufferSize, true) else (b, false)

/-- `FPIDController::ClearAveragingBuffer`: zero-fill the averaging buffer to
`_CalculationAverageBufferSize` entries (empty if the size is not positive). -/
def ClearAveragingBuffer (s : FPIDController) : FPIDController :=
  { s with calculationAveragingBuffer :=
      if s.calculationAverageBufferSize > 0 then
        List.replicate s.calculationAverageBufferSize.toNat 0
      else [] }

/-- `FPIDController::ClearState`: reset the run-time state of an active
controller (the enabled flag, tick buffer, integral accumulation, previous
calculation/input/error, and the averaging buffer). -/
def ClearState (s : FPIDController) : FPIDController :=
  ClearAveragingBuffer
    { s with bIsEnabled := true, tickBuffer := 0, integralAccumulation := 0,
             previousCalculation := 0, previousInput := 0, previousError := 0 }

/-- `FPIDController::SetAveragingBufferSize`: store the new size and clear the
averaging buffer. -/
def SetAveragingBufferSize (s : FPIDController) (AveragingBufferSize : ℤ) :
    FPIDController :=
  ClearAveragingBuffer { s with calculationAverageBufferSize := AveragingBufferSize }

/-- The default constructor `FPIDController()`: buffer size 1, `ClearState`,
then the default tunables (bounds `[0,1]`, period `0.2`, gains P=1, I=0, D=0). -/
def mkDefault : FPIDController :=
  { ClearState
      { P_Gain := 0, I_Gain := 0, D_Gain := 0, ControlledValue_Max := 0,
        ControlledValue_Min := 0, PeriodicDuration := 0,
        calculationAveragingBuffer := [], calculationAverageBufferSize := 1,
        bIsEnabled := true, previousError := 0, previousCalculation := 0,
        previousInput := 0, integralAccumulation := 0, tickBuffer := 0 } with
    ControlledValue_Max := 1, ControlledValue_Min := 0,
    PeriodicDuration := 1/5, P_Gain := 1, I_Gain := 0, D_Gain := 0 }

/-- The explicit constructor
`FPIDController(InP_Gain, InI_Gain, InD_Gain, MaxValue, MinValue, InPeriodicDuration)`,
which delegates to the default constructor and overwrites the tunables. -/
def mkWithGains (InP_Gain InI_Gain InD_Gain MaxValue MinValue InPeriodicDuration : ℚ) :
    FPIDController :=
  { mkDefault with
    P_Gain := InP_Gain, I_Gain := InI_Gain, D_Gain := InD_Gain,
    ControlledValue_Max := MaxValue, ControlledValue_Min := MinValue,
    PeriodicDuration := InPeriodicDuration }

/-- `FPIDController::ProportionalError`: `0` for a nearly-zero gain, else
`P_Gain * Error`. -/
def ProportionalError (s : FPIDController) (Error : ℚ) : ℚ :=
  if IsNearlyZero s.P_Gain then 0 else s.P_Gain * Error

/-- `FPIDController::IntegralError`: for a nearly-zero gain, return the
accumulator unchanged; otherwise accumulate `I_Gain * Error * DeltaTime` and
clamp the accumulator into `[ControlledValue_Min, ControlledValue_Max]`.
Returns the C++ return value together with the updated controller. -/
def IntegralError (s : FPIDController) (Error DeltaTime : ℚ) :
    ℚ × FPIDController :=
  if IsNearlyZero s.I_Gain then (s.integralAccumulation, s)
  else
    let acc := s.integralAccumulation + s.I_Gain * Error * DeltaTime
    let acc2 :=
      if acc > s.ControlledValue_Max then s.ControlledValue_Max
      else if acc < s.ControlledValue_Min then s.ControlledValue_Min
      else acc
    (acc2, { s with integralAccumulation := acc2 })

/-- `FPIDController::DifferentialError` (error-based, susceptible to
derivative kick): `0` when `DeltaTime < 0`, `DeltaTime` nearly zero, or the
gain nearly zero; else `D_Gain * (Error - _PreviousError) / DeltaTime`. -/
def DifferentialError (s : FPIDController) (Error DeltaTime : ℚ) : ℚ :=
  if DeltaTime < 0 ∨ IsNearlyZero DeltaTime ∨ IsNearlyZero s.D_Gain then 0
  else s.D_Gain * ((Error - s.previousError) / DeltaTime)

/-- `FPIDController::DifferentialError_PreventDerivativeKick`: same guards,
else `-1 * D_Gain * (CurrentInput - _PreviousInput) / DeltaTime` (derivative
of the measured value instead of the error). -/
def DifferentialErrorPreventDerivativeKick (s : FPIDController)
    (CurrentInput DeltaTime : ℚ) : ℚ :=
  if DeltaTime < 0 ∨ IsNearlyZero DeltaTime ∨ IsNearlyZero s.D_Gain then 0
  else -1 * s.D_Gain * ((CurrentInput - s.previousInput) / DeltaTime)

/-- `FPIDController::CachePreviousError`. -/
def CachePreviousError (s : FPIDController) (Error : ℚ) : FPIDController :=
  { s with previousError := Error }

/-- `FPIDController::CachePreviousInput`. -/
def CachePreviousInput (s : FPIDController) (InputValue : ℚ) : FPIDController :=
  { s with previousInput := InputValue }

/-- The clamp performed at the start of `FPIDController::ClampAndCacheOutput`. -/
def clampOutput (s : FPIDController) (OutputValue : ℚ) : ℚ :=
  if OutputValue > s.ControlledValue_Max then s.ControlledValue_Max
  else if OutputValue < s.ControlledValue_Min then s.ControlledValue_Min
  else OutputValue

/-- `FPIDController::CachePreviousCalculation`: store the value as the
previous calculation and, when the averaging buffer size exceeds 1, push it
into the rolling window (append, then drop the oldest entry). -/
def CachePreviousCalculation (s : FPIDController) (CalculatedValue : ℚ) :
    FPIDController :=
  let s1 := { s with previousCalculation := CalculatedValue }
  if s1.calculationAverageBufferSize > 1 then
    { s1 with calculationAveragingBuffer :=
        (s1.calculationAveragingBuffer ++ [CalculatedValue]).tail }
  else s1

/-- `FPIDController::ClampAndCacheOutput`: clamp to the output bounds, cache
as the previous calculation, and return the clamped value. -/
def ClampAndCacheOutput (s : FPIDController) (OutputValue : ℚ) :
    ℚ × FPIDController :=
  (clampOutput s OutputValue, CachePreviousCalculation s (clampOutput s OutputValue))

/-- `FPIDController::CalculateNewValue(TargetSetpoint, CurrentValue, DeltaTime)`:
the setpoint/measurement entry point with the kick-free derivative.  Returns
the C++ return value together with the updated controller. -/
def CalculateNewValue (s : FPIDController)
    (TargetSetpoint CurrentValue DeltaTime : ℚ) : ℚ × FPIDController :=
  if IsNearlyZero DeltaTime then (0, s)
  else
    let Error := TargetSetpoint - CurrentValue
    let pOut := ProportionalError s Error
    let iRes := IntegralError s Error DeltaTime
    let dOut := DifferentialErrorPreventDerivativeKick iRes.2 CurrentValue DeltaTime
    let s2 := CachePreviousInput (CachePreviousError iRes.2 Error) CurrentValue
    ClampAndCacheOutput s2 (pOut + iRes.1 + dOut)

/-- `FPIDController::CalculateNewValue(Error, DeltaTime)`: the error-based
entry point (susceptible to derivative kick; previous input not updated). -/
def CalculateNewValueFromError (s : FPIDController) (Error DeltaTime : ℚ) :
    ℚ × FPIDController :=
  if IsNearlyZero DeltaTime then (0, s)
  else
    let pOut := ProportionalError s Error
    let iRes := IntegralError s Error DeltaTime
    let dOut := DifferentialError iRes.2 Error DeltaTime
    let s2 := CachePreviousError iRes.2 Error
    ClampAndCacheOutput s2 (pOut + iRes.1 + dOut)

/-- `FPIDController::Tick(TargetSetpoint, CurrentValue, DeltaTime)`: the
periodic scheduler over the setpoint/measurement calculation.  Returns the
C++ `bool` ("did a calculation occur") and the updated controller. -/
def Tick (s : FPIDController) (TargetSetpoint CurrentValue DeltaTime : ℚ) :
    Bool × FPIDController :=
  if s.PeriodicDuration > 0 then
    if DeltaTime > s.PeriodicDuration then
      let a := AccumulateBuffer s.tickBuffer DeltaTime DeltaTime
      let s1 := { s with tickBuffer := a.1 }
      (true, (CalculateNewValue s1 TargetSetpoint CurrentValue DeltaTime).2)
    else
      let a := AccumulateBuffer s.tickBuffer DeltaTime s.PeriodicDuration
      let s1 := { s with tickBuffer := a.1 }
      if a.2 then
        (true, (CalculateNewValue s1 TargetSetpoint CurrentValue s.PeriodicDuration).2)
      else (false, s1)
  else
    (true, (CalculateNewValue s TargetSetpoint CurrentValue DeltaTime).2)

/-- `FPIDController::Tick(Error, DeltaTime)`: the periodic scheduler over the
error-based calculation. -/
def TickFromError (s : FPIDController) (Error DeltaTime : ℚ) :
    Bool × FPIDController :=
  if s.PeriodicDuration > 0 then
    if DeltaTime > s.PeriodicDuration then
      let a := AccumulateBuffer s.tickBuffer DeltaTime DeltaTime
      let s1 := { s with tickBuffer := a.1 }
      (true, (CalculateNewValueFromError s1 Error DeltaTime).2)
    else
      let a := AccumulateBuffer s.tickBuffer DeltaTime s.PeriodicDuration
      let s1 := { s with tickBuffer := a.1 }
      if a.2 then
        (true, (CalculateNewValueFromError s1 Error s.PeriodicDuration).2)
      else (false, s1)
  else
    (true, (CalculateNewValueFromError s Error DeltaTime).2)

/-- `FPIDController::TickIfEnabled(TargetSetpoint, CurrentValue, DeltaTime)`. -/
def TickIfEnabled (s : FPIDController) (TargetSetpoint CurrentValue DeltaTime : ℚ) :
    Bool × FPIDController :=
  if s.bIsEnabled then Tick s TargetSetpoint CurrentValue DeltaTime else (false, s)

/-- `FPIDController::TickIfEnabled(Error, DeltaTime)`. -/
def TickIfEnabledFromError (s : FPIDController) (Error DeltaTime : ℚ) :
    Bool × FPIDController :=
  if s.bIsEnabled then TickFromError s Error DeltaTime else (false, s)

/-- `FPIDController::SetPeriodicDuration`: when both the old and the new
period are strictly positive and not nearly zero, rescale `I_Gain` by
`New/Old` and `D_Gain` by its inverse; then store the new period. -/
def SetPeriodicDuration (s : FPIDController) (NewPeriodicDuration : ℚ) :
    FPIDController :=
  let s1 :=
    if NewPeriodicDuration > 0 ∧ IsNearlyZero NewPeriodicDuration = false ∧
        s.PeriodicDuration > 0 ∧ IsNearlyZero s.PeriodicDuration = false then
      let GainChangeRatio := NewPeriodicDuration / s.PeriodicDuration
      { s with I_Gain := s.I_Gain * GainChangeRatio,
               D_Gain := s.D_Gain / GainChangeRatio }
    else s
  { s1 with PeriodicDuration := NewPeriodicDuration }

/-- `FPIDController::Initialize`: seed the integral accumulation (0 when
clearing, else the last calculated value), clamp it into the output bounds,
then call `ClearState` (which re-zeroes it). -/
def Initialize (s : FPIDController) (bClearIntegralAccumulation : Bool) :
    FPIDController :=
  let acc := if bClearIntegralAccumulation then 0 else s.previousCalculation
  let acc2 :=
    if acc > s.ControlledValue_Max then s.ControlledValue_Max
    else if acc < s.ControlledValue_Min then s.ControlledValue_Min
    else acc
  ClearState { s with integralAccumulation := acc2 }

/-- `FPIDController::SetEnabled`: run `Initialize` on a disabled→enabled
transition, then store the flag. -/
def SetEnabled (s : FPIDController) (IsEnabledArg bClearIntegralAccumulation : Bool) :
    FPIDController :=
  let s1 :=
    if s.bIsEnabled = false ∧ IsEnabledArg = true then
      Initialize s bClearIntegralAccumulation
    else s
  { s1 with bIsEnabled := IsEnabledArg }

/-- `FPIDController::GetAverageCalculatedValue`: the previous calculation when
the buffer size is at most 1; otherwise the sum of the stored window entries
(up to the buffer size) divided by the buffer size. -/
def GetAverageCalculatedValue (s : FPIDController) : ℚ :=
  if s.calculationAverageBufferSize ≤ 1 then s.previousCalculation
  else
    (s.calculationAveragingBuffer.take s.calculationAverageBufferSize.toNat).sum /
      (s.calculationAverageBufferSize : ℚ)

/-- `FPIDController::GetLastCalculatedValue`. -/
def GetLastCalculatedValue (s : FPIDController) : ℚ := s.previousCalculation

/-- `FPIDController::GetIntegralAccumulation`. -/
def GetIntegralAccumulation (s : FPIDController) : ℚ := s.integralAccumulation

/-- The output bounds admit `0` (the integral accumulator's initial and
cleared value). -/
def BoundsContainZero (s : FPIDController) : Prop :=
  s.ControlledValue_Min ≤ 0 ∧ 0 ≤ s.ControlledValue_Max

/-- The anti-windup invariant: the integral accumulator lies within the
output bounds. -/
def IntegralWithinBounds (s : FPIDController) : Prop :=
  s.ControlledValue_Min ≤ s.integralAccumulation ∧
  s.integralAccumulation ≤ s.ControlledValue_Max

/-- One public mutating call of the controller API: a direct calculation
(either overload), a tick (either overload, gated or not), or one of the
setters (`SetPeriodicDuration`, `SetEnabled`, `SetAveragingBufferSize`). -/
inductive PIDOp where
  | calcMeas (TargetSetpoint CurrentValue DeltaTime : ℚ)
  | calcErr (Error DeltaTime : ℚ)
  | tickMeas (TargetSetpoint CurrentValue DeltaTime : ℚ)
  | tickErr (Error DeltaTime : ℚ)
  | tickIfEnabledMeas (TargetSetpoint CurrentValue DeltaTime : ℚ)
  | tickIfEnabledErr (Error DeltaTime : ℚ)
  | setPeriodicDurationOp (NewPeriodicDuration : ℚ)
  | setEnabledOp (IsEnabledArg bClearIntegralAccumulation : Bool)
  | setAveragingBufferSizeOp (AveragingBufferSize : ℤ)
  deriving DecidableEq, Repr

/-- Apply one public call to the controller, discarding the C++ return
value. -/
def step (s : FPIDController) : PIDOp → FPIDController
  | .calcMeas t c dt => (CalculateNewValue s t c dt).2
  | .calcErr e dt => (CalculateNewValueFromError s e dt).2
  | .tickMeas t c dt => (Tick s t c dt).2
  | .tickErr e dt => (TickFromError s e dt).2
  | .tickIfEnabledMeas t c dt => (TickIfEnabled s t c dt).2
  | .tickIfEnabledErr e dt => (TickIfEnabledFromError s e dt).2
  | .setPeriodicDurationOp p => SetPeriodicDuration s p
  | .setEnabledOp b clear => SetEnabled s b clear
  | .setAveragingBufferSizeOp n => SetAveragingBufferSize s n

/-- Apply a sequence of public calls in order. -/
def run (s : FPIDController) (ops : List PIDOp) : FPIDController :=
  ops.foldl step s

end FPIDController

/-! ## Helper lemmas -/

namespace FPIDController

theorem IsNearlyZero_iff (value : ℚ) :
    IsNearlyZero value = true ↔
      value = 0 ∨ (value > -(1/100000) ∧ value < 1/100000) := by
  simp [IsNearlyZero]

theorem IsNearlyZero_eq_false_iff (value : ℚ) :
    IsNearlyZero value = false ↔
      ¬(value = 0 ∨ (value > -(1/100000) ∧ value < 1/100000)) := by
  simp [IsNearlyZero]

theorem IsNearlyZero_zero : IsNearlyZero 0 = true := by
  simp [IsNearlyZero]

theorem ne_zero_of_IsNearlyZero_eq_false {value : ℚ}
    (h : IsNearlyZero value = false) : value ≠ 0 := by
  rw [IsNearlyZero_eq_false_iff] at h
  intro hv
  exact h (Or.inl hv)

theorem clampOutput_mem (s : FPIDController) (v : ℚ)
    (h : s.ControlledValue_Min ≤ s.ControlledValue_Max) :
    s.ControlledValue_Min ≤ clampOutput s v ∧
      clampOutput s v ≤ s.ControlledValue_Max := by
  unfold clampOutput
  split_ifs with h1 h2
  · exact ⟨h, le_refl _⟩
  · exact ⟨le_refl _, h⟩
  · exact ⟨le_of_not_lt h2, le_of_not_lt h1⟩

theorem CalculateNewValueFromError_PeriodicDuration (s : FPIDController) (e dt : ℚ) :
    (CalculateNewValueFromError s e dt).2.PeriodicDuration = s.PeriodicDuration := by
  simp only [CalculateNewValueFromError, ClampAndCacheOutput,
    CachePreviousCalculation, CachePreviousError, IntegralError]
  split_ifs <;> rfl

theorem CalculateNewValueFromError_tickBuffer (s : FPIDController) (e dt : ℚ) :
    (CalculateNewValueFromError s e dt).2.tickBuffer = s.tickBuffer := by
  simp only [CalculateNewValueFromError, ClampAndCacheOutput,
    CachePreviousCalculation, CachePreviousError, IntegralError]
  split_ifs <;> rfl

theorem CalculateNewValue_PeriodicDuration (s : FPIDController) (t c dt : ℚ) :
    (CalculateNewValue s t c dt).2.PeriodicDuration = s.PeriodicDuration := by
  simp only [CalculateNewValue, ClampAndCacheOutput, CachePreviousCalculation,
    CachePreviousInput, CachePreviousError, IntegralError]
  split_ifs <;> rfl

theorem CalculateNewValue_tickBuffer (s : FPIDController) (t c dt : ℚ) :
    (CalculateNewValue s t c dt).2.tickBuffer = s.tickBuffer := by
  simp only [CalculateNewValue, ClampAndCacheOutput, CachePreviousCalculation,
    CachePreviousInput, CachePreviousError, IntegralError]
  split_ifs <;> rfl

end FPIDController

/-! ## The claims -/

open FPIDController

/-- Claim C1 (code bug): the spec says that re-enabling a disabled controller
with `clearIntegral = false` seeds the integral accumulator with the clamped
last output.  In the code, `Initialize` does perform that seeding, but then
calls `ClearState`, which re-zeroes the accumulator, so after re-enabling the
accumulator is always `0`.  Shown in general (`Initialize` always leaves a
zero accumulator) and on a concrete trace: a calculation produces the output
`1/2`, the controller is disabled and re-enabled with `clearIntegral = false`,
and the accumulator ends at `0`, not at the clamped last output `1/2`. -/
theorem reenable_zeroes_integral_accumulation :
    (∀ (s : FPIDController) (b : Bool), (Initialize s b).integralAccumulation = 0) ∧
    (let s0 := mkWithGains 1 0 0 1 0 (1/5)
     let s1 := (CalculateNewValueFromError s0 (1/2) 1).2
     let s2 := SetEnabled s1 false false
     let s3 := SetEnabled s2 true false
     s2.bIsEnabled = false ∧
     GetLastCalculatedValue s2 = 1/2 ∧
     clampOutput s2 (GetLastCalculatedValue s2) = 1/2 ∧
     s3.bIsEnabled = true ∧
     s3.integralAccumulation = 0 ∧
     (0 : ℚ) ≠ 1/2) := by
  constructor
  · intro s b
    simp [Initialize, ClearState, ClearAveragingBuffer]
  · norm_num [SetEnabled, Initialize, ClearState, ClearAveragingBuffer,
      CalculateNewValueFromError, IsNearlyZero, ProportionalError, IntegralError,
      DifferentialError, CachePreviousError, ClampAndCacheOutput, clampOutput,
      CachePreviousCalculation, GetLastCalculatedValue, mkWithGains, mkDefault]

/-- Claim C7: `SetPeriodicDuration` rescales the integral gain by
`new/old` and the derivative gain by the inverse ratio exactly when both the
old and the new period are strictly positive and not nearly zero, then stores
the new period unconditionally; concretely, from period `1/5` to `1/10` with
`I_Gain = 2` and `D_Gain = 1` the gains become `1` and `2`. -/
theorem set_periodic_duration_rescales_gains (s : FPIDController) (np : ℚ) :
    (SetPeriodicDuration s np =
      if 0 < np ∧ IsNearlyZero np = false ∧
          0 < s.PeriodicDuration ∧ IsNearlyZero s.PeriodicDuration = false then
        { s with I_Gain := s.I_Gain * (np / s.PeriodicDuration),
                 D_Gain := s.D_Gain / (np / s.PeriodicDuration),
                 PeriodicDuration := np }
      else { s with PeriodicDuration := np }) ∧
    (SetPeriodicDuration (mkWithGains 1 2 1 1 0 (1/5)) (1/10)).I_Gain = 1 ∧
    (SetPeriodicDuration (mkWithGains 1 2 1 1 0 (1/5)) (1/10)).D_Gain = 2 ∧
    (SetPeriodicDuration (mkWithGains 1 2 1 1 0 (1/5)) (1/10)).PeriodicDuration = 1/10 := by
  refine ⟨?_, by norm_num [SetPeriodicDuration, IsNearlyZero, mkWithGains, mkDefault], ?_, ?_⟩
  · unfold SetPeriodicDuration
    split_ifs with h1 <;> simp_all
  · norm_num [SetPeriodicDuration, IsNearlyZero, mkWithGains, mkDefault]
  · norm_num [SetPeriodicDuration, IsNearlyZero, mkWithGains, mkDefault]

/-- Claim C10: `Tick` can report `true` with no calculation and no state
change.  With period `0` (pass-through) and `DeltaTime = 0`, and with period
`10⁻⁶` and the overshooting `DeltaTime = 5·10⁻⁶` (both nearly zero), the inner
calculation aborts early (returns `0` and mutates nothing), yet `Tick`
returns `true` with the controller state unchanged. -/
theorem tick_true_without_calculation :
    (mkWithGains 1 0 0 1 0 0).PeriodicDuration ≤ 0 ∧
    IsNearlyZero (0 : ℚ) = true ∧
    CalculateNewValueFromError (mkWithGains 1 0 0 1 0 0) 5 0 =
      (0, mkWithGains 1 0 0 1 0 0) ∧
    TickFromError (mkWithGains 1 0 0 1 0 0) 5 0 = (true, mkWithGains 1 0 0 1 0 0) ∧
    0 < (mkWithGains 1 0 0 1 0 (1/1000000)).PeriodicDuration ∧
    (mkWithGains 1 0 0 1 0 (1/1000000)).PeriodicDuration < 1/200000 ∧
    IsNearlyZero (1/200000 : ℚ) = true ∧
    CalculateNewValueFromError (mkWithGains 1 0 0 1 0 (1/1000000)) 5 (1/200000) =
      (0, mkWithGains 1 0 0 1 0 (1/1000000)) ∧
    TickFromError (mkWithGains 1 0 0 1 0 (1/1000000)) 5 (1/200000) =
      (true, mkWithGains 1 0 0 1 0 (1/1000000)) := by
  norm_num [TickFromError, CalculateNewValueFromError, IsNearlyZero,
    AccumulateBuffer, mkWithGains, mkDefault, ClearState, ClearAveragingBuffer]

/-- Claim C3, counterexample: with all three gains zero but a nonzero
(previously accumulated, since frozen) integral accumulator of `1/2`, the
error-based calculation returns `1/2`, not `0` — `IntegralError` returns the
unchanged accumulator when the integral gain is nearly zero, and that value
flows into the output sum. -/
theorem all_zero_gains_counterexample :
    (let s : FPIDController :=
      { mkWithGains 0 0 0 1 0 (1/5) with integralAccumulation := 1/2 }
     s.P_Gain = 0 ∧ s.I_Gain = 0 ∧ s.D_Gain = 0 ∧
     IsNearlyZero (1 : ℚ) = false ∧
     (CalculateNewValueFromError s 0 1).1 = 1/2 ∧
     (1/2 : ℚ) ≠ 0) := by
  norm_num [CalculateNewValueFromError, IsNearlyZero, ProportionalError,
    IntegralError, DifferentialError, CachePreviousError, ClampAndCacheOutput,
    clampOutput, CachePreviousCalculation, mkWithGains, mkDefault, ClearState,
    ClearAveragingBuffer]

/-- Claim C3 (amended): with all three gains zero and a valid (not nearly
zero) `DeltaTime`, either calculation entry point returns the current
integral accumulator clamped to the output bounds and leaves the accumulator
unchanged; in particular it returns `0` whenever the accumulator is `0` and
the bounds contain `0`. -/
theorem all_zero_gains_returns_clamped_accumulator
    (s : FPIDController) (t c e dt : ℚ)
    (hP : s.P_Gain = 0) (hI : s.I_Gain = 0) (hD : s.D_Gain = 0)
    (hdt : IsNearlyZero dt = false) :
    (CalculateNewValueFromError s e dt).1 = clampOutput s s.integralAccumulation ∧
    (CalculateNewValueFromError s e dt).2.integralAccumulation = s.integralAccumulation ∧
    (CalculateNewValue s t c dt).1 = clampOutput s s.integralAccumulation ∧
    (CalculateNewValue s t c dt).2.integralAccumulation = s.integralAccumulation ∧
    (s.integralAccumulation = 0 → s.ControlledValue_Min ≤ 0 → 0 ≤ s.ControlledValue_Max →
      (CalculateNewValueFromError s e dt).1 = 0 ∧ (CalculateNewValue s t c dt).1 = 0) := by
  have hclamp : s.integralAccumulation = 0 → s.ControlledValue_Min ≤ 0 →
      0 ≤ s.ControlledValue_Max → clampOutput s s.integralAccumulation = 0 := by
    intro h1 h2 h3
    unfold clampOutput
    rw [h1]
    split_ifs with g1 g2
    · linarith
    · linarith
    · rfl
  have h1 : (CalculateNewValueFromError s e dt).1 =
      clampOutput s s.integralAccumulation ∧
      (CalculateNewValueFromError s e dt).2.integralAccumulation =
        s.integralAccumulation := by
    constructor
    · simp [CalculateNewValueFromError, ProportionalError, IntegralError,
        DifferentialError, CachePreviousError, ClampAndCacheOutput,
        CachePreviousCalculation, clampOutput, hP, hI, hD, hdt, IsNearlyZero_zero]
    · simp [CalculateNewValueFromError, ProportionalError, IntegralError,
        DifferentialError, CachePreviousError, ClampAndCacheOutput,
        CachePreviousCalculation, clampOutput, hP, hI, hD, hdt, IsNearlyZero_zero]
      split_ifs <;> rfl
  have h2 : (CalculateNewValue s t c dt).1 =
      clampOutput s s.integralAccumulation ∧
      (CalculateNewValue s t c dt).2.integralAccumulation =
        s.integralAccumulation := by
    constructor
    · simp [CalculateNewValue, ProportionalError, IntegralError,
        DifferentialErrorPreventDerivativeKick, CachePreviousError,
        CachePreviousInput, ClampAndCacheOutput, CachePreviousCalculation,
        clampOutput, hP, hI, hD, hdt, IsNearlyZero_zero]
    · simp [CalculateNewValue, ProportionalError, IntegralError,
        DifferentialErrorPreventDerivativeKick, CachePreviousError,
        CachePreviousInput, ClampAndCacheOutput, CachePreviousCalculation,
        clampOutput, hP, hI, hD, hdt, IsNearlyZero_zero]
      split_ifs <;> rfl
  refine ⟨h1.1, h1.2, h2.1, h2.2, ?_⟩
  intro g1 g2 g3
  rw [h1.1, h2.1, hclamp g1 g2 g3]
  exact ⟨rfl, rfl⟩

/-- Claim C3 witness: the amended statement instantiated at a controller with
all gains zero, accumulator `0`, bounds `[0,1]`, and `DeltaTime = 1`. -/
theorem all_zero_gains_witness :
    ((mkWithGains 0 0 0 1 0 (1/5)).P_Gain = 0 ∧
     (mkWithGains 0 0 0 1 0 (1/5)).I_Gain = 0 ∧
     (mkWithGains 0 0 0 1 0 (1/5)).D_Gain = 0 ∧
     IsNearlyZero (1 : ℚ) = false) ∧
    (CalculateNewValueFromError (mkWithGains 0 0 0 1 0 (1/5)) 2 1).1 =
      clampOutput (mkWithGains 0 0 0 1 0 (1/5))
        (mkWithGains 0 0 0 1 0 (1/5)).integralAccumulation ∧
    (CalculateNewValueFromError (mkWithGains 0 0 0 1 0 (1/5)) 2 1).2.integralAccumulation =
      (mkWithGains 0 0 0 1 0 (1/5)).integralAccumulation ∧
    (CalculateNewValueFromError (mkWithGains 0 0 0 1 0 (1/5)) 2 1).1 = 0 := by
  have hP : (mkWithGains 0 0 0 1 0 (1/5)).P_Gain = 0 := by
    norm_num [mkWithGains, mkDefault]
  have hI : (mkWithGains 0 0 0 1 0 (1/5)).I_Gain = 0 := by
    norm_num [mkWithGains, mkDefault]
  have hD : (mkWithGains 0 0 0 1 0 (1/5)).D_Gain = 0 := by
    norm_num [mkWithGains, mkDefault]
  have hdt : IsNearlyZero (1 : ℚ) = false := by
    norm_num [IsNearlyZero]
  have h := all_zero_gains_returns_clamped_accumulator
    (mkWithGains 0 0 0 1 0 (1/5)) 3 1 2 1 hP hI hD hdt
  refine ⟨⟨hP, hI, hD, hdt⟩, h.1, h.2.1, ?_⟩
  exact (h.2.2.2.2 (by norm_num [mkWithGains, mkDefault, ClearState, ClearAveragingBuffer])
    (by norm_num [mkWithGains, mkDefault])
    (by norm_num [mkWithGains, mkDefault])).1

/-- Claim C4, counterexample: a negative `DeltaTime` beyond the ±1e-5
tolerance is not nearly zero, so the early-out guard does not fire: with
`DeltaTime = -1` the error-based calculation proceeds, returns the clamped
proportional output `1` (not `0`), and mutates the stored previous error. -/
theorem negative_delta_time_counterexample :
    ((-1 : ℚ) < 0) ∧
    IsNearlyZero (-1 : ℚ) = false ∧
    (CalculateNewValueFromError (mkWithGains 1 0 0 1 0 (1/5)) 1 (-1)).1 = 1 ∧
    (1 : ℚ) ≠ 0 ∧
    (mkWithGains 1 0 0 1 0 (1/5)).previousError = 0 ∧
    (CalculateNewValueFromError (mkWithGains 1 0 0 1 0 (1/5)) 1 (-1)).2.previousError = 1 := by
  norm_num [CalculateNewValueFromError, IsNearlyZero, ProportionalError,
    IntegralError, DifferentialError, CachePreviousError, ClampAndCacheOutput,
    clampOutput, CachePreviousCalculation, mkWithGains, mkDefault, ClearState,
    ClearAveragingBuffer]

/-- Claim C4 (amended): only a nearly-zero `DeltaTime` (within ±1e-5, with 0
exactly zero) makes a direct calculation return `0` with no state mutation at
all; both entry points return `(0, s)` unchanged in that case.  (A negative
`DeltaTime` beyond the tolerance is not rejected; only the derivative term
guards against it.) -/
theorem nearly_zero_delta_time_no_mutation
    (s : FPIDController) (t c e dt : ℚ) (h : IsNearlyZero dt = true) :
    CalculateNewValue s t c dt = (0, s) ∧
    CalculateNewValueFromError s e dt = (0, s) := by
  constructor <;> simp [CalculateNewValue, CalculateNewValueFromError, h]

/-- Claim C4 witness: the amended statement at `DeltaTime = 0` on the default
controller. -/
theorem nearly_zero_delta_time_witness :
    IsNearlyZero (0 : ℚ) = true ∧
    CalculateNewValue mkDefault 1 2 0 = (0, mkDefault) ∧
    CalculateNewValueFromError mkDefault 3 0 = (0, mkDefault) := by
  have h := nearly_zero_delta_time_no_mutation mkDefault 1 2 3 0 IsNearlyZero_zero
  exact ⟨IsNearlyZero_zero, h.1, h.2⟩

/-- Claim C8, counterexample: a derivative gain of `10⁻⁶` is nonzero, yet
under a setpoint jump (changed error, valid `DeltaTime = 1`) the error-based
derivative term is `0`, not the claimed nonzero kick — the gain falls inside
the nearly-zero tolerance of `10⁻⁵`. -/
theorem derivative_kick_tolerance_counterexample :
    (mkWithGains 1 0 (1/1000000) 1 0 (1/5)).D_Gain ≠ 0 ∧
    (mkWithGains 1 0 (1/1000000) 1 0 (1/5)).previousError = 0 ∧
    (1 : ℚ) ≠ (mkWithGains 1 0 (1/1000000) 1 0 (1/5)).previousError ∧
    ¬((1 : ℚ) < 0) ∧
    IsNearlyZero (1 : ℚ) = false ∧
    DifferentialError (mkWithGains 1 0 (1/1000000) 1 0 (1/5)) 1 1 = 0 := by
  norm_num [DifferentialError, IsNearlyZero, mkWithGains, mkDefault,
    ClearState, ClearAveragingBuffer]

/-- Claim C8 (amended): for any state and a valid positive `DeltaTime`, the
kick-free derivative contributes exactly `0` when the measured value equals
the stored previous input; under the same jump the error-based derivative is
`D_Gain * (Error - previousError) / DeltaTime`, which is nonzero provided the
derivative gain is not nearly zero (rather than merely nonzero) and the error
changed. -/
theorem kick_free_derivative_vs_error_derivative
    (s : FPIDController) (e dt : ℚ)
    (hD : IsNearlyZero s.D_Gain = false) (hdt : 0 < dt)
    (hdtnz : IsNearlyZero dt = false) (he : e ≠ s.previousError) :
    DifferentialErrorPreventDerivativeKick s s.previousInput dt = 0 ∧
    DifferentialError s e dt = s.D_Gain * ((e - s.previousError) / dt) ∧
    DifferentialError s e dt ≠ 0 := by
  have hdlt : ¬(dt < 0) := not_lt.mpr (le_of_lt hdt)
  have heq : DifferentialError s e dt = s.D_Gain * ((e - s.previousError) / dt) := by
    unfold DifferentialError
    simp [hdlt, hdtnz, hD]
  refine ⟨?_, heq, ?_⟩
  · unfold DifferentialErrorPreventDerivativeKick
    split_ifs with h
    · rfl
    · simp
  · rw [heq]
    exact mul_ne_zero (ne_zero_of_IsNearlyZero_eq_false hD)
      (div_ne_zero (sub_ne_zero.mpr he) (ne_of_gt hdt))

/-- Claim C8 witness: the amended statement at a controller with derivative
gain `1`, previous input and previous error `0`, error `2`, `DeltaTime = 1`. -/
theorem kick_free_derivative_witness :
    (IsNearlyZero (mkWithGains 1 0 1 1 0 (1/5)).D_Gain = false ∧
     (0 : ℚ) < 1 ∧ IsNearlyZero (1 : ℚ) = false ∧
     (2 : ℚ) ≠ (mkWithGains 1 0 1 1 0 (1/5)).previousError) ∧
    DifferentialErrorPreventDerivativeKick (mkWithGains 1 0 1 1 0 (1/5))
      (mkWithGains 1 0 1 1 0 (1/5)).previousInput 1 = 0 ∧
    DifferentialError (mkWithGains 1 0 1 1 0 (1/5)) 2 1 =
      (mkWithGains 1 0 1 1 0 (1/5)).D_Gain *
        ((2 - (mkWithGains 1 0 1 1 0 (1/5)).previousError) / 1) ∧
    DifferentialError (mkWithGains 1 0 1 1 0 (1/5)) 2 1 ≠ 0 := by
  have hD : IsNearlyZero (mkWithGains 1 0 1 1 0 (1/5)).D_Gain = false := by
    norm_num [IsNearlyZero, mkWithGains, mkDefault]
  have he : (2 : ℚ) ≠ (mkWithGains 1 0 1 1 0 (1/5)).previousError := by
    norm_num [mkWithGains, mkDefault, ClearState, ClearAveragingBuffer]
  have hdtnz : IsNearlyZero (1 : ℚ) = false := by norm_num [IsNearlyZero]
  have h := kick_free_derivative_vs_error_derivative
    (mkWithGains 1 0 1 1 0 (1/5)) 2 1 hD (by norm_num) hdtnz he
  exact ⟨⟨hD, by norm_num, hdtnz, he⟩, h.1, h.2.1, h.2.2⟩

/-- Claim C5: with period `T > 0` and a tick of `0 < dt ≤ T` (so the
overshoot branch is never taken), both `Tick` variants behave as the fixed
period scheduler: when the accumulated time reaches `T`, exactly one
calculation runs with exactly `T` as its effective `DeltaTime`, `T` is
subtracted from the accumulator (remainder carried forward) and the tick
returns `true`; otherwise the tick returns `false` and only the accumulator
grows — the last output and all other state are unchanged. -/
theorem tick_accumulates_then_calculates_with_period
    (s : FPIDController) (t c e dt : ℚ)
    (hT : 0 < s.PeriodicDuration) (h0 : 0 < dt) (hle : dt ≤ s.PeriodicDuration) :
    TickFromError s e dt =
      (if s.PeriodicDuration ≤ s.tickBuffer + dt then
        (true, (CalculateNewValueFromError
          { s with tickBuffer := s.tickBuffer + dt - s.PeriodicDuration } e
          s.PeriodicDuration).2)
      else (false, { s with tickBuffer := s.tickBuffer + dt })) ∧
    Tick s t c dt =
      (if s.PeriodicDuration ≤ s.tickBuffer + dt then
        (true, (CalculateNewValue
          { s with tickBuffer := s.tickBuffer + dt - s.PeriodicDuration } t c
          s.PeriodicDuration).2)
      else (false, { s with tickBuffer := s.tickBuffer + dt })) := by
  have hngt : ¬(dt > s.PeriodicDuration) := not_lt.mpr hle
  constructor
  · by_cases h : s.PeriodicDuration ≤ s.tickBuffer + dt
    · rw [if_pos h]
      simp only [TickFromError, AccumulateBuffer, if_pos hT, if_neg hngt, ge_iff_le,
        if_pos h, if_true]
    · rw [if_neg h]
      simp only [TickFromError, AccumulateBuffer, if_pos hT, if_neg hngt, ge_iff_le,
        if_neg h, Bool.false_eq_true, if_false]
  · by_cases h : s.PeriodicDuration ≤ s.tickBuffer + dt
    · rw [if_pos h]
      simp only [Tick, AccumulateBuffer, if_pos hT, if_neg hngt, ge_iff_le,
        if_pos h, if_true]
    · rw [if_neg h]
      simp only [Tick, AccumulateBuffer, if_pos hT, if_neg hngt, ge_iff_le,
        if_neg h, Bool.false_eq_true, if_false]

/-- Claim C5 witness: the scheduler statement at period `1/4`, tick `1/10`,
on a freshly constructed controller. -/
theorem tick_accumulates_witness :
    (0 < (mkWithGains 1 0 0 1 0 (1/4)).PeriodicDuration ∧
     (0 : ℚ) < 1/10 ∧
     (1/10 : ℚ) ≤ (mkWithGains 1 0 0 1 0 (1/4)).PeriodicDuration) ∧
    TickFromError (mkWithGains 1 0 0 1 0 (1/4)) 1 (1/10) =
      (if (mkWithGains 1 0 0 1 0 (1/4)).PeriodicDuration ≤
          (mkWithGains 1 0 0 1 0 (1/4)).tickBuffer + 1/10 then
        (true, (CalculateNewValueFromError
          { mkWithGains 1 0 0 1 0 (1/4) with
            tickBuffer := (mkWithGains 1 0 0 1 0 (1/4)).tickBuffer + 1/10 -
              (mkWithGains 1 0 0 1 0 (1/4)).PeriodicDuration } 1
          (mkWithGains 1 0 0 1 0 (1/4)).PeriodicDuration).2)
      else (false, { mkWithGains 1 0 0 1 0 (1/4) with
        tickBuffer := (mkWithGains 1 0 0 1 0 (1/4)).tickBuffer + 1/10 })) := by
  have hT : 0 < (mkWithGains 1 0 0 1 0 (1/4)).PeriodicDuration := by
    norm_num [mkWithGains, mkDefault]
  have hle : (1/10 : ℚ) ≤ (mkWithGains 1 0 0 1 0 (1/4)).PeriodicDuration := by
    norm_num [mkWithGains, mkDefault]
  exact ⟨⟨hT, by norm_num, hle⟩,
    (tick_accumulates_then_calculates_with_period
      (mkWithGains 1 0 0 1 0 (1/4)) 2 1 1 (1/10) hT (by norm_num) hle).1⟩

/-- Claim C6, counterexample: the tick buffer of a reachable state is not
always inside `[0, period)` after a successful tick.  Starting from a fresh
controller with period `1/2`, one tick of `9/20` fills the buffer to `9/20`;
`SetPeriodicDuration (1/5)` stores the new period without resetting the
buffer; the next tick of `1/10 ≤ 1/5` succeeds and leaves the buffer at
`7/20 ≥ 1/5`, outside `[0, period)`, even though the caller-supplied delta
did not exceed the period (so the claimed exception does not apply). -/
theorem tick_buffer_range_counterexample :
    (let v0 := mkWithGains 1 0 0 1 0 (1/2)
     let v1 := (TickFromError v0 0 (9/20)).2
     let v2 := SetPeriodicDuration v1 (1/5)
     let v3 := TickFromError v2 0 (1/10)
     v2.PeriodicDuration = 1/5 ∧
     (1/10 : ℚ) ≤ v2.PeriodicDuration ∧
     v3.1 = true ∧
     v3.2.PeriodicDuration = 1/5 ∧
     v3.2.tickBuffer = 7/20 ∧
     ¬(v3.2.tickBuffer < v3.2.PeriodicDuration)) := by
  norm_num [TickFromError, SetPeriodicDuration, AccumulateBuffer,
    CalculateNewValueFromError, IsNearlyZero, ProportionalError, IntegralError,
    DifferentialError, CachePreviousError, ClampAndCacheOutput, clampOutput,
    CachePreviousCalculation, mkWithGains, mkDefault, ClearState,
    ClearAveragingBuffer]

/-- Claim C6 (amended): for a controller with period `T > 0` whose tick
buffer currently lies in `[0, T)`, any successful tick (either variant)
leaves the buffer in `[0, T)`; and when the single caller-supplied delta
exceeds the period, the buffer is unchanged by that call (the full delta is
consumed immediately).  The original claim over all reachable states fails
because `SetPeriodicDuration` can shrink the period below the buffer. -/
theorem tick_buffer_stays_in_range
    (s : FPIDController) (t c e dt : ℚ)
    (hT : 0 < s.PeriodicDuration) (hb0 : 0 ≤ s.tickBuffer)
    (hbT : s.tickBuffer < s.PeriodicDuration) :
    ((TickFromError s e dt).1 = true →
      0 ≤ (TickFromError s e dt).2.tickBuffer ∧
      (TickFromError s e dt).2.tickBuffer < (TickFromError s e dt).2.PeriodicDuration ∧
      (s.PeriodicDuration < dt → (TickFromError s e dt).2.tickBuffer = s.tickBuffer)) ∧
    ((Tick s t c dt).1 = true →
      0 ≤ (Tick s t c dt).2.tickBuffer ∧
      (Tick s t c dt).2.tickBuffer < (Tick s t c dt).2.PeriodicDuration ∧
      (s.PeriodicDuration < dt → (Tick s t c dt).2.tickBuffer = s.tickBuffer)) := by
  constructor
  · intro hsucc
    by_cases hov : dt > s.PeriodicDuration
    · have hge : dt ≤ s.tickBuffer + dt := by linarith
      simp only [TickFromError, AccumulateBuffer, if_pos hT, if_pos hov, ge_iff_le,
        if_pos hge, CalculateNewValueFromError_tickBuffer,
        CalculateNewValueFromError_PeriodicDuration]
      refine ⟨by linarith, by linarith, fun _ => by ring⟩
    · by_cases hof : s.PeriodicDuration ≤ s.tickBuffer + dt
      · push_neg at hov
        simp only [TickFromError, AccumulateBuffer, if_pos hT,
          if_neg (not_lt.mpr hov), ge_iff_le, if_pos hof, if_true,
          CalculateNewValueFromError_tickBuffer,
          CalculateNewValueFromError_PeriodicDuration]
        refine ⟨by linarith, by linarith, fun hlt => absurd hlt (not_lt.mpr hov)⟩
      · simp only [TickFromError, AccumulateBuffer, if_pos hT, if_neg hov,
          ge_iff_le, if_neg hof, Bool.false_eq_true, if_false] at hsucc
  · intro hsucc
    by_cases hov : dt > s.PeriodicDuration
    · have hge : dt ≤ s.tickBuffer + dt := by linarith
      simp only [Tick, AccumulateBuffer, if_pos hT, if_pos hov, ge_iff_le,
        if_pos hge, CalculateNewValue_tickBuffer, CalculateNewValue_PeriodicDuration]
      refine ⟨by linarith, by linarith, fun _ => by ring⟩
    · by_cases hof : s.PeriodicDuration ≤ s.tickBuffer + dt
      · push_neg at hov
        simp only [Tick, AccumulateBuffer, if_pos hT, if_neg (not_lt.mpr hov),
          ge_iff_le, if_pos hof, if_true, CalculateNewValue_tickBuffer,
          CalculateNewValue_PeriodicDuration]
        refine ⟨by linarith, by linarith, fun hlt => absurd hlt (not_lt.mpr hov)⟩
      · simp only [Tick, AccumulateBuffer, if_pos hT, if_neg hov, ge_iff_le,
          if_neg hof, Bool.false_eq_true, if_false] at hsucc

/-- Claim C6 witness: the amended statement at a fresh controller with period
`1/4` and a successful tick of `dt = 1/4`. -/
theorem tick_buffer_range_witness :
    (0 < (mkWithGains 1 0 0 1 0 (1/4)).PeriodicDuration ∧
     0 ≤ (mkWithGains 1 0 0 1 0 (1/4)).tickBuffer ∧
     (mkWithGains 1 0 0 1 0 (1/4)).tickBuffer <
       (mkWithGains 1 0 0 1 0 (1/4)).PeriodicDuration ∧
     (TickFromError (mkWithGains 1 0 0 1 0 (1/4)) 1 (1/4)).1 = true) ∧
    0 ≤ (TickFromError (mkWithGains 1 0 0 1 0 (1/4)) 1 (1/4)).2.tickBuffer ∧
    (TickFromError (mkWithGains 1 0 0 1 0 (1/4)) 1 (1/4)).2.tickBuffer <
      (TickFromError (mkWithGains 1 0 0 1 0 (1/4)) 1 (1/4)).2.PeriodicDuration := by
  have hT : 0 < (mkWithGains 1 0 0 1 0 (1/4)).PeriodicDuration := by
    norm_num [mkWithGains, mkDefault]
  have hb0 : 0 ≤ (mkWithGains 1 0 0 1 0 (1/4)).tickBuffer := by
    norm_num [mkWithGains, mkDefault, ClearState, ClearAveragingBuffer]
  have hbT : (mkWithGains 1 0 0 1 0 (1/4)).tickBuffer <
      (mkWithGains 1 0 0 1 0 (1/4)).PeriodicDuration := by
    norm_num [mkWithGains, mkDefault, ClearState, ClearAveragingBuffer]
  have hsucc : (TickFromError (mkWithGains 1 0 0 1 0 (1/4)) 1 (1/4)).1 = true := by
    norm_num [TickFromError, AccumulateBuffer, mkWithGains, mkDefault,
      ClearState, ClearAveragingBuffer]
  have h := (tick_buffer_stays_in_range
    (mkWithGains 1 0 0 1 0 (1/4)) 2 1 1 (1/4) hT hb0 hbT).1 hsucc
  exact ⟨⟨hT, hb0, hbT, hsucc⟩, h.1, h.2.1⟩

/-- Claim C9: `GetAverageCalculatedValue` returns the plain arithmetic mean
of the window contents when the buffer size exceeds 1 (the window always
holds exactly `size` entries in reachable states) and the last raw output
when the size is at most 1; resizing zero-fills the window.  Concretely, with
window size 3 and raw outputs `1/5, 2/5, 3/5` the average is `2/5`, and
resizing to 1 clears the history so the average becomes the latest output. -/
theorem get_average_mean_and_resize_clears (s u : FPIDController) (n : ℤ)
    (h1 : s.calculationAverageBufferSize ≤ 1)
    (h2 : 1 < u.calculationAverageBufferSize)
    (h3 : u.calculationAveragingBuffer.length = u.calculationAverageBufferSize.toNat) :
    GetAverageCalculatedValue s = GetLastCalculatedValue s ∧
    GetAverageCalculatedValue u =
      u.calculationAveragingBuffer.sum / (u.calculationAveragingBuffer.length : ℚ) ∧
    (SetAveragingBufferSize s n).calculationAveragingBuffer =
      (if 0 < n then List.replicate n.toNat 0 else []) ∧
    (let x0 := SetAveragingBufferSize (mkWithGains 1 0 0 1 0 (1/5)) 3
     let x1 := (CalculateNewValueFromError x0 (1/5) 1).2
     let x2 := (CalculateNewValueFromError x1 (2/5) 1).2
     let x3 := (CalculateNewValueFromError x2 (3/5) 1).2
     x1.previousCalculation = 1/5 ∧ x2.previousCalculation = 2/5 ∧
     x3.previousCalculation = 3/5 ∧
     x3.calculationAveragingBuffer = [1/5, 2/5, 3/5] ∧
     GetAverageCalculatedValue x3 = 2/5 ∧
     (SetAveragingBufferSize x3 1).calculationAveragingBuffer = [0] ∧
     GetAverageCalculatedValue (SetAveragingBufferSize x3 1) = 3/5) := by
  have hnn : (0 : ℤ) ≤ u.calculationAverageBufferSize := by linarith
  refine ⟨?_, ?_, ?_, ?_⟩
  · unfold GetAverageCalculatedValue GetLastCalculatedValue
    rw [if_pos h1]
  · unfold GetAverageCalculatedValue
    rw [if_neg (not_le.mpr h2), ← h3, List.take_length, h3]
    congr 1
    rw [← Int.cast_natCast, Int.toNat_of_nonneg hnn]
  · unfold SetAveragingBufferSize ClearAveragingBuffer
    simp only [gt_iff_lt]
  · norm_num [SetAveragingBufferSize, ClearAveragingBuffer, GetAverageCalculatedValue,
      CalculateNewValueFromError, IsNearlyZero, ProportionalError, IntegralError,
      DifferentialError, CachePreviousError, ClampAndCacheOutput, clampOutput,
      CachePreviousCalculation, mkWithGains, mkDefault, ClearState,
      List.replicate, List.sum_cons, Int.toNat_ofNat, List.take_succ_cons,
      List.take_zero]
    rw [show List.take ((3:ℤ).toNat) [(1:ℚ)/5, 2/5, 3/5] = [(1:ℚ)/5, 2/5, 3/5] from rfl]
    norm_num [List.sum_cons]

/-- Claim C9 witness: the averaging statement instantiated with the default
controller (window size 1), a controller resized to window size 3 (whose
window holds three zero entries), and a resize to 2. -/
theorem get_average_witness :
    ((mkDefault).calculationAverageBufferSize ≤ 1 ∧
     1 < (SetAveragingBufferSize mkDefault 3).calculationAverageBufferSize ∧
     (SetAveragingBufferSize mkDefault 3).calculationAveragingBuffer.length =
       (SetAveragingBufferSize mkDefault 3).calculationAverageBufferSize.toNat) ∧
    GetAverageCalculatedValue mkDefault = GetLastCalculatedValue mkDefault ∧
    GetAverageCalculatedValue (SetAveragingBufferSize mkDefault 3) =
      (SetAveragingBufferSize mkDefault 3).calculationAveragingBuffer.sum /
        ((SetAveragingBufferSize mkDefault 3).calculationAveragingBuffer.length : ℚ) ∧
    (SetAveragingBufferSize mkDefault 2).calculationAveragingBuffer =
      (if 0 < (2 : ℤ) then List.replicate (2 : ℤ).toNat 0 else []) := by
  have h1 : (mkDefault).calculationAverageBufferSize ≤ 1 := by
    norm_num [mkDefault, ClearState, ClearAveragingBuffer]
  have h2 : 1 < (SetAveragingBufferSize mkDefault 3).calculationAverageBufferSize := by
    norm_num [SetAveragingBufferSize, ClearAveragingBuffer, mkDefault, ClearState]
  have h3 : (SetAveragingBufferSize mkDefault 3).calculationAveragingBuffer.length =
      (SetAveragingBufferSize mkDefault 3).calculationAverageBufferSize.toNat := by
    norm_num [SetAveragingBufferSize, ClearAveragingBuffer, mkDefault, ClearState,
      List.length_replicate]
  have h := get_average_mean_and_resize_clears mkDefault
    (SetAveragingBufferSize mkDefault 3) 2 h1 h2 h3
  exact ⟨⟨h1, h2, h3⟩, h.1, h.2.1, h.2.2.1⟩

theorem CachePreviousCalculation_fields (s : FPIDController) (v : ℚ) :
    (CachePreviousCalculation s v).integralAccumulation = s.integralAccumulation ∧
    (CachePreviousCalculation s v).ControlledValue_Min = s.ControlledValue_Min ∧
    (CachePreviousCalculation s v).ControlledValue_Max = s.ControlledValue_Max := by
  simp only [CachePreviousCalculation]
  split_ifs <;> exact ⟨rfl, rfl, rfl⟩

theorem IntegralError_acc_mem (s : FPIDController) (e dt : ℚ)
    (hmm : s.ControlledValue_Min ≤ s.ControlledValue_Max)
    (h3 : s.ControlledValue_Min ≤ s.integralAccumulation)
    (h4 : s.integralAccumulation ≤ s.ControlledValue_Max) :
    s.ControlledValue_Min ≤ (IntegralError s e dt).2.integralAccumulation ∧
    (IntegralError s e dt).2.integralAccumulation ≤ s.ControlledValue_Max := by
  simp only [IntegralError]
  split_ifs with hI g1 g2
  · exact ⟨h3, h4⟩
  · exact ⟨hmm, le_refl _⟩
  · exact ⟨le_refl _, hmm⟩
  · exact ⟨le_of_not_lt g2, le_of_not_lt g1⟩

theorem IntegralError_bounds (s : FPIDController) (e dt : ℚ) :
    (IntegralError s e dt).2.ControlledValue_Min = s.ControlledValue_Min ∧
    (IntegralError s e dt).2.ControlledValue_Max = s.ControlledValue_Max := by
  simp only [IntegralError]
  split_ifs <;> exact ⟨rfl, rfl⟩

theorem CalcErr_bounds (s : FPIDController) (e dt : ℚ) :
    (CalculateNewValueFromError s e dt).2.ControlledValue_Min = s.ControlledValue_Min ∧
    (CalculateNewValueFromError s e dt).2.ControlledValue_Max = s.ControlledValue_Max := by
  simp only [CalculateNewValueFromError, ClampAndCacheOutput,
    CachePreviousCalculation, CachePreviousError, IntegralError]
  split_ifs <;> exact ⟨rfl, rfl⟩

theorem CalcMeas_bounds (s : FPIDController) (t c dt : ℚ) :
    (CalculateNewValue s t c dt).2.ControlledValue_Min = s.ControlledValue_Min ∧
    (CalculateNewValue s t c dt).2.ControlledValue_Max = s.ControlledValue_Max := by
  simp only [CalculateNewValue, ClampAndCacheOutput, CachePreviousCalculation,
    CachePreviousInput, CachePreviousError, IntegralError]
  split_ifs <;> exact ⟨rfl, rfl⟩

theorem CalcErr_acc_mem (s : FPIDController) (e dt : ℚ)
    (hmm : s.ControlledValue_Min ≤ s.ControlledValue_Max)
    (h3 : s.ControlledValue_Min ≤ s.integralAccumulation)
    (h4 : s.integralAccumulation ≤ s.ControlledValue_Max) :
    s.ControlledValue_Min ≤ (CalculateNewValueFromError s e dt).2.integralAccumulation ∧
    (CalculateNewValueFromError s e dt).2.integralAccumulation ≤ s.ControlledValue_Max := by
  unfold CalculateNewValueFromError
  split_ifs with hdt
  · exact ⟨h3, h4⟩
  · simp only [ClampAndCacheOutput]
    rw [(CachePreviousCalculation_fields _ _).1]
    exact IntegralError_acc_mem s e dt hmm h3 h4

theorem CalcMeas_acc_mem (s : FPIDController) (t c dt : ℚ)
    (hmm : s.ControlledValue_Min ≤ s.ControlledValue_Max)
    (h3 : s.ControlledValue_Min ≤ s.integralAccumulation)
    (h4 : s.integralAccumulation ≤ s.ControlledValue_Max) :
    s.ControlledValue_Min ≤ (CalculateNewValue s t c dt).2.integralAccumulation ∧
    (CalculateNewValue s t c dt).2.integralAccumulation ≤ s.ControlledValue_Max := by
  unfold CalculateNewValue
  split_ifs with hdt
  · exact ⟨h3, h4⟩
  · simp only [ClampAndCacheOutput]
    rw [(CachePreviousCalculation_fields _ _).1]
    exact IntegralError_acc_mem s (t - c) dt hmm h3 h4

theorem CalcErr_fst_eq (s : FPIDController) (e dt : ℚ) :
    (CalculateNewValueFromError s e dt).1 =
      if IsNearlyZero dt then 0
      else clampOutput s (ProportionalError s e + (IntegralError s e dt).1 +
        DifferentialError (IntegralError s e dt).2 e dt) := by
  unfold CalculateNewValueFromError
  split_ifs with hdt
  · rfl
  · simp only [ClampAndCacheOutput, clampOutput, CachePreviousError]
    rw [(IntegralError_bounds s e dt).1, (IntegralError_bounds s e dt).2]

theorem CalcMeas_fst_eq (s : FPIDController) (t c dt : ℚ) :
    (CalculateNewValue s t c dt).1 =
      if IsNearlyZero dt then 0
      else clampOutput s (ProportionalError s (t - c) + (IntegralError s (t - c) dt).1 +
        DifferentialErrorPreventDerivativeKick (IntegralError s (t - c) dt).2 c dt) := by
  unfold CalculateNewValue
  split_ifs with hdt
  · rfl
  · simp only [ClampAndCacheOutput, clampOutput, CachePreviousError, CachePreviousInput]
    rw [(IntegralError_bounds s (t - c) dt).1, (IntegralError_bounds s (t - c) dt).2]

theorem CalcErr_fst_mem (s : FPIDController) (e dt : ℚ)
    (h1 : s.ControlledValue_Min ≤ 0) (h2 : 0 ≤ s.ControlledValue_Max) :
    s.ControlledValue_Min ≤ (CalculateNewValueFromError s e dt).1 ∧
    (CalculateNewValueFromError s e dt).1 ≤ s.ControlledValue_Max := by
  rw [CalcErr_fst_eq]
  split_ifs with hdt
  · exact ⟨h1, h2⟩
  · exact clampOutput_mem s _ (le_trans h1 h2)

theorem CalcMeas_fst_mem (s : FPIDController) (t c dt : ℚ)
    (h1 : s.ControlledValue_Min ≤ 0) (h2 : 0 ≤ s.ControlledValue_Max) :
    s.ControlledValue_Min ≤ (CalculateNewValue s t c dt).1 ∧
    (CalculateNewValue s t c dt).1 ≤ s.ControlledValue_Max := by
  rw [CalcMeas_fst_eq]
  split_ifs with hdt
  · exact ⟨h1, h2⟩
  · exact clampOutput_mem s _ (le_trans h1 h2)

theorem TickErr_inv (s : FPIDController) (e dt : ℚ)
    (h1 : s.ControlledValue_Min ≤ 0) (h2 : 0 ≤ s.ControlledValue_Max)
    (h3 : s.ControlledValue_Min ≤ s.integralAccumulation)
    (h4 : s.integralAccumulation ≤ s.ControlledValue_Max) :
    (TickFromError s e dt).2.ControlledValue_Min = s.ControlledValue_Min ∧
    (TickFromError s e dt).2.ControlledValue_Max = s.ControlledValue_Max ∧
    s.ControlledValue_Min ≤ (TickFromError s e dt).2.integralAccumulation ∧
    (TickFromError s e dt).2.integralAccumulation ≤ s.ControlledValue_Max := by
  have hmm := le_trans h1 h2
  simp only [TickFromError]
  split_ifs with hT hov hof
  · have h := CalcErr_acc_mem
      { s with tickBuffer := (AccumulateBuffer s.tickBuffer dt dt).1 } e dt hmm h3 h4
    exact ⟨(CalcErr_bounds _ e dt).1, (CalcErr_bounds _ e dt).2, h.1, h.2⟩
  · have h := CalcErr_acc_mem
      { s with tickBuffer := (AccumulateBuffer s.tickBuffer dt s.PeriodicDuration).1 }
      e s.PeriodicDuration hmm h3 h4
    exact ⟨(CalcErr_bounds _ e _).1, (CalcErr_bounds _ e _).2, h.1, h.2⟩
  · exact ⟨rfl, rfl, h3, h4⟩
  · have h := CalcErr_acc_mem s e dt hmm h3 h4
    exact ⟨(CalcErr_bounds _ e dt).1, (CalcErr_bounds _ e dt).2, h.1, h.2⟩

theorem TickMeas_inv (s : FPIDController) (t c dt : ℚ)
    (h1 : s.ControlledValue_Min ≤ 0) (h2 : 0 ≤ s.ControlledValue_Max)
    (h3 : s.ControlledValue_Min ≤ s.integralAccumulation)
    (h4 : s.integralAccumulation ≤ s.ControlledValue_Max) :
    (Tick s t c dt).2.ControlledValue_Min = s.ControlledValue_Min ∧
    (Tick s t c dt).2.ControlledValue_Max = s.ControlledValue_Max ∧
    s.ControlledValue_Min ≤ (Tick s t c dt).2.integralAccumulation ∧
    (Tick s t c dt).2.integralAccumulation ≤ s.ControlledValue_Max := by
  have hmm := le_trans h1 h2
  simp only [Tick]
  split_ifs with hT hov hof
  · have h := CalcMeas_acc_mem
      { s with tickBuffer := (AccumulateBuffer s.tickBuffer dt dt).1 } t c dt hmm h3 h4
    exact ⟨(CalcMeas_bounds _ t c dt).1, (CalcMeas_bounds _ t c dt).2, h.1, h.2⟩
  · have h := CalcMeas_acc_mem
      { s with tickBuffer := (AccumulateBuffer s.tickBuffer dt s.PeriodicDuration).1 }
      t c s.PeriodicDuration hmm h3 h4
    exact ⟨(CalcMeas_bounds _ t c _).1, (CalcMeas_bounds _ t c _).2, h.1, h.2⟩
  · exact ⟨rfl, rfl, h3, h4⟩
  · have h := CalcMeas_acc_mem s t c dt hmm h3 h4
    exact ⟨(CalcMeas_bounds _ t c dt).1, (CalcMeas_bounds _ t c dt).2, h.1, h.2⟩

theorem SetEnabled_inv (s : FPIDController) (b clear : Bool)
    (h1 : s.ControlledValue_Min ≤ 0) (h2 : 0 ≤ s.ControlledValue_Max)
    (h3 : s.ControlledValue_Min ≤ s.integralAccumulation)
    (h4 : s.integralAccumulation ≤ s.ControlledValue_Max) :
    (SetEnabled s b clear).ControlledValue_Min = s.ControlledValue_Min ∧
    (SetEnabled s b clear).ControlledValue_Max = s.ControlledValue_Max ∧
    s.ControlledValue_Min ≤ (SetEnabled s b clear).integralAccumulation ∧
    (SetEnabled s b clear).integralAccumulation ≤ s.ControlledValue_Max := by
  simp only [SetEnabled]
  split_ifs with h
  · exact ⟨rfl, rfl, h1, h2⟩
  · exact ⟨rfl, rfl, h3, h4⟩

theorem step_inv (s : FPIDController) (op : PIDOp)
    (h1 : s.ControlledValue_Min ≤ 0) (h2 : 0 ≤ s.ControlledValue_Max)
    (h3 : s.ControlledValue_Min ≤ s.integralAccumulation)
    (h4 : s.integralAccumulation ≤ s.ControlledValue_Max) :
    (step s op).ControlledValue_Min = s.ControlledValue_Min ∧
    (step s op).ControlledValue_Max = s.ControlledValue_Max ∧
    s.ControlledValue_Min ≤ (step s op).integralAccumulation ∧
    (step s op).integralAccumulation ≤ s.ControlledValue_Max := by
  have hmm := le_trans h1 h2
  cases op with
  | calcMeas t c dt =>
      exact ⟨(CalcMeas_bounds s t c dt).1, (CalcMeas_bounds s t c dt).2,
        (CalcMeas_acc_mem s t c dt hmm h3 h4).1, (CalcMeas_acc_mem s t c dt hmm h3 h4).2⟩
  | calcErr e dt =>
      exact ⟨(CalcErr_bounds s e dt).1, (CalcErr_bounds s e dt).2,
        (CalcErr_acc_mem s e dt hmm h3 h4).1, (CalcErr_acc_mem s e dt hmm h3 h4).2⟩
  | tickMeas t c dt => exact TickMeas_inv s t c dt h1 h2 h3 h4
  | tickErr e dt => exact TickErr_inv s e dt h1 h2 h3 h4
  | tickIfEnabledMeas t c dt =>
      simp only [step, TickIfEnabled]
      split_ifs with h
      · exact TickMeas_inv s t c dt h1 h2 h3 h4
      · exact ⟨rfl, rfl, h3, h4⟩
  | tickIfEnabledErr e dt =>
      simp only [step, TickIfEnabledFromError]
      split_ifs with h
      · exact TickErr_inv s e dt h1 h2 h3 h4
      · exact ⟨rfl, rfl, h3, h4⟩
  | setPeriodicDurationOp p =>
      simp only [step, SetPeriodicDuration]
      split_ifs with h
      · exact ⟨rfl, rfl, h3, h4⟩
      · exact ⟨rfl, rfl, h3, h4⟩
  | setEnabledOp b clear => exact SetEnabled_inv s b clear h1 h2 h3 h4
  | setAveragingBufferSizeOp n => exact ⟨rfl, rfl, h3, h4⟩

theorem run_inv (ops : List PIDOp) (s : FPIDController)
    (h1 : s.ControlledValue_Min ≤ 0) (h2 : 0 ≤ s.ControlledValue_Max)
    (h3 : s.ControlledValue_Min ≤ s.integralAccumulation)
    (h4 : s.integralAccumulation ≤ s.ControlledValue_Max) :
    (run s ops).ControlledValue_Min = s.ControlledValue_Min ∧
    (run s ops).ControlledValue_Max = s.ControlledValue_Max ∧
    s.ControlledValue_Min ≤ (run s ops).integralAccumulation ∧
    (run s ops).integralAccumulation ≤ s.ControlledValue_Max := by
  induction ops generalizing s with
  | nil => exact ⟨rfl, rfl, h3, h4⟩
  | cons op ops ih =>
      have hs := step_inv s op h1 h2 h3 h4
      have h1' : (step s op).ControlledValue_Min ≤ 0 := by rw [hs.1]; exact h1
      have h2' : 0 ≤ (step s op).ControlledValue_Max := by rw [hs.2.1]; exact h2
      have h3' : (step s op).ControlledValue_Min ≤ (step s op).integralAccumulation := by
        rw [hs.1]; exact hs.2.2.1
      have h4' : (step s op).integralAccumulation ≤ (step s op).ControlledValue_Max := by
        rw [hs.2.1]; exact hs.2.2.2
      have hrun := ih (step s op) h1' h2' h3' h4'
      refine ⟨hrun.1.trans hs.1, hrun.2.1.trans hs.2.1, ?_, ?_⟩
      · rw [← hs.1]; exact hrun.2.2.1
      · rw [← hs.2.1]; exact hrun.2.2.2

/-- Claim C2 (amended): for a controller whose output bounds contain `0` and
whose integral accumulator starts within `[min, max]`, after any sequence of
public calls (calculations, ticks, gated ticks, setters, enable/disable) the
integral accumulator remains within `[min, max]`, and any calculation
performed at that point returns a value within `[min, max]`, for inputs of
any magnitude.  The original claim, with no assumption on the bounds, fails:
see the counterexample with `min = 1/2`. -/
theorem anti_windup_bounds (s : FPIDController) (ops : List PIDOp) (t c e dt : ℚ)
    (h1 : s.ControlledValue_Min ≤ 0) (h2 : 0 ≤ s.ControlledValue_Max)
    (h3 : s.ControlledValue_Min ≤ s.integralAccumulation)
    (h4 : s.integralAccumulation ≤ s.ControlledValue_Max) :
    ((run s ops).ControlledValue_Min ≤ (run s ops).integralAccumulation ∧
     (run s ops).integralAccumulation ≤ (run s ops).ControlledValue_Max) ∧
    ((run s ops).ControlledValue_Min ≤ (CalculateNewValue (run s ops) t c dt).1 ∧
     (CalculateNewValue (run s ops) t c dt).1 ≤ (run s ops).ControlledValue_Max) ∧
    ((run s ops).ControlledValue_Min ≤ (CalculateNewValueFromError (run s ops) e dt).1 ∧
     (CalculateNewValueFromError (run s ops) e dt).1 ≤ (run s ops).ControlledValue_Max) := by
  have hr := run_inv ops s h1 h2 h3 h4
  have h1' : (run s ops).ControlledValue_Min ≤ 0 := by rw [hr.1]; exact h1
  have h2' : 0 ≤ (run s ops).ControlledValue_Max := by rw [hr.2.1]; exact h2
  refine ⟨⟨?_, ?_⟩, CalcMeas_fst_mem _ t c dt h1' h2', CalcErr_fst_mem _ e dt h1' h2'⟩
  · rw [hr.1]; exact hr.2.2.1
  · rw [hr.2.1]; exact hr.2.2.2

/-- Claim C2, counterexample: with output bounds `[1/2, 1]` (which do not
contain `0`), a calculation with `DeltaTime = 0` returns the early-out value
`0`, which is below the output minimum — so not every value returned by a
calculation lies within `[min, max]`. -/
theorem anti_windup_counterexample :
    (mkWithGains 1 0 0 1 (1/2) (1/5)).ControlledValue_Min = 1/2 ∧
    (mkWithGains 1 0 0 1 (1/2) (1/5)).ControlledValue_Max = 1 ∧
    (CalculateNewValueFromError (mkWithGains 1 0 0 1 (1/2) (1/5)) 0 0).1 = 0 ∧
    ¬((mkWithGains 1 0 0 1 (1/2) (1/5)).ControlledValue_Min ≤
        (CalculateNewValueFromError (mkWithGains 1 0 0 1 (1/2) (1/5)) 0 0).1) := by
  norm_num [CalculateNewValueFromError, IsNearlyZero, mkWithGains, mkDefault]

/-- Claim C2 witness: the amended statement on the default controller
(bounds `[0,1]`) over a six-call sequence mixing calculations, ticks,
disable/re-enable, a period change and a buffer resize. -/
theorem anti_windup_witness :
    (mkDefault.ControlledValue_Min ≤ 0 ∧ 0 ≤ mkDefault.ControlledValue_Max ∧
     mkDefault.ControlledValue_Min ≤ mkDefault.integralAccumulation ∧
     mkDefault.integralAccumulation ≤ mkDefault.ControlledValue_Max) ∧
    (let ops := [PIDOp.calcErr 100 1, PIDOp.tickErr 3 (1/10),
      PIDOp.setEnabledOp false false, PIDOp.setEnabledOp true true,
      PIDOp.setPeriodicDurationOp (1/10), PIDOp.setAveragingBufferSizeOp 4]
     ((run mkDefault ops).ControlledValue_Min ≤ (run mkDefault ops).integralAccumulation ∧
      (run mkDefault ops).integralAccumulation ≤ (run mkDefault ops).ControlledValue_Max) ∧
     ((run mkDefault ops).ControlledValue_Min ≤ (CalculateNewValue (run mkDefault ops) 5 2 1).1 ∧
      (CalculateNewValue (run mkDefault ops) 5 2 1).1 ≤ (run mkDefault ops).ControlledValue_Max) ∧
     ((run mkDefault ops).ControlledValue_Min ≤
        (CalculateNewValueFromError (run mkDefault ops) 7 1).1 ∧
      (CalculateNewValueFromError (run mkDefault ops) 7 1).1 ≤
        (run mkDefault ops).ControlledValue_Max)) := by
  have h1 : mkDefault.ControlledValue_Min ≤ 0 := by
    norm_num [mkDefault, ClearState, ClearAveragingBuffer]
  have h2 : (0 : ℚ) ≤ mkDefault.ControlledValue_Max := by
    norm_num [mkDefault, ClearState, ClearAveragingBuffer]
  have h3 : mkDefault.ControlledValue_Min ≤ mkDefault.integralAccumulation := by
    norm_num [mkDefault, ClearState, ClearAveragingBuffer]
  have h4 : mkDefault.integralAccumulation ≤ mkDefault.ControlledValue_Max := by
    norm_num [mkDefault, ClearState, ClearAveragingBuffer]
  exact ⟨⟨h1, h2, h3, h4⟩,
    anti_windup_bounds mkDefault
      [PIDOp.calcErr 100 1, PIDOp.tickErr 3 (1/10),
        PIDOp.setEnabledOp false false, PIDOp.setEnabledOp true true,
        PIDOp.setPeriodicDurationOp (1/10), PIDOp.setAveragingBufferSizeOp 4]
      5 2 7 1 h1 h2 h3 h4⟩
